import Mathlib

/-!
Verification of the resilient HTTP client of the cryptocurrency test-automation
framework (src/utils/api_client.py): the retry decorator and the ApiClient
class (construction, session headers, and the four HTTP verb methods).

The embedding is shallow: the retry decorator's while loop is modelled as a
structurally recursive function on the remaining number of attempts
(fuel = max_attempts - attempt; the loop guard attempt < max_attempts is
fuel > 0, and the post-increment test attempt == max_attempts is fuel = 1),
the environment's behaviour on the i-th transport invocation is a function of
the invocation index, and the run of a call records the number of invocations,
the sleep durations, the log events, and the final outcome.
-/

/-- Exceptions that can arise during a call.  The first three constructors are
the requests.exceptions.RequestException category (HTTPError raised by
raise_for_status, ConnectionError, Timeout); otherExn stands for any exception
outside that category. -/
inductive Exn where
  | httpError (status : Nat)
  | connectionError
  | timeout
  | otherExn
  deriving DecidableEq, Repr

/-- Membership in the caught category of the retry decorator's default
exceptions tuple, (requests.exceptions.RequestException,). -/
def isRequestException : Exn → Bool
  | Exn.otherExn => false
  | _ => true

/-- Log events emitted by the retry wrapper: the warning before each sleep
(logger.warning, carrying the failed attempt number and the delay) and the
error on exhaustion (logger.error, carrying the attempt count). -/
inductive LogEvent where
  | warnRetry (attempt : Nat) (delay : Int) (e : Exn)
  | errorExhausted (attempts : Nat) (e : Exn)
  deriving DecidableEq, Repr

/-- Outcome of a wrapped call: a returned value, the implicit None returned
when the while loop is never entered (max_attempts <= 0), or a raised
exception. -/
inductive Outcome (α : Type) where
  | value (a : α)
  | noneResult
  | raised (e : Exn)
  deriving DecidableEq, Repr

/-- Observable trace of one run of the retry wrapper. -/
structure RunResult (α : Type) where
  invocations : Nat
  sleeps : List Int
  log : List LogEvent
  outcome : Outcome α
  deriving DecidableEq, Repr

/-- The body of the retry decorator's while loop (api_client.py lines 31-46),
by recursion on the remaining attempts.  attempt is the loop counter (also the
index of the next invocation of the wrapped function), currentDelay the
current sleep duration; fuel = max_attempts - attempt, so fuel = 0 is the
failed loop guard (fall through, Python returns None), and after the increment
attempt == max_attempts exactly when fuel = 1. -/
def wrapperLoop {α : Type} (exceptions : Exn → Bool) (backoff : Int)
    (f : Nat → Except Exn α) : Nat → Nat → Int → RunResult α
  | 0, _, _ => { invocations := 0, sleeps := [], log := [], outcome := Outcome.noneResult }
  | fuel + 1, attempt, currentDelay =>
    match f attempt with
    | Except.ok v =>
        { invocations := 1, sleeps := [], log := [], outcome := Outcome.value v }
    | Except.error e =>
        if exceptions e then
          if fuel = 0 then
            { invocations := 1, sleeps := [],
              log := [LogEvent.errorExhausted (attempt + 1) e],
              outcome := Outcome.raised e }
          else
            let rest := wrapperLoop exceptions backoff f fuel (attempt + 1) (currentDelay * backoff)
            { invocations := rest.invocations + 1,
              sleeps := currentDelay :: rest.sleeps,
              log := LogEvent.warnRetry (attempt + 1) currentDelay e :: rest.log,
              outcome := rest.outcome }
        else
          { invocations := 1, sleeps := [], log := [], outcome := Outcome.raised e }

/-- The retry decorator (api_client.py lines 15-49) applied to a wrapped
function f, where f i is the outcome of the i-th invocation of the wrapped
function.  Defaults mirror the Python signature:
max_attempts = 3, delay = 1, backoff = 2, exceptions = (RequestException,). -/
def retry {α : Type} (f : Nat → Except Exn α) (max_attempts : Int := 3)
    (delay : Int := 1) (backoff : Int := 2)
    (exceptions : Exn → Bool := isRequestException) : RunResult α :=
  wrapperLoop exceptions backoff f max_attempts.toNat 0 delay

/-- HTTP verbs of the client. -/
inductive Verb where
  | GET
  | POST
  | PUT
  | DELETE
  deriving DecidableEq, Repr

/-- A request as handed to the underlying session call: verb, full URL,
the session's headers, optional query parameters, optional form data,
optional JSON body, and the configured timeout. -/
structure Request where
  verb : Verb
  url : String
  headers : List (String × String)
  params : Option (List (String × String)) := none
  formData : Option (List (String × String)) := none
  jsonData : Option (List (String × String)) := none
  timeout : Int
  deriving DecidableEq, Repr

/-- An HTTP response; only the status code matters to the client logic. -/
structure Response where
  status : Nat
  deriving DecidableEq, Repr

/-- What the underlying transport does on one invocation: return a response
or raise a network-level exception. -/
inductive TransportResult where
  | resp (r : Response)
  | exn (e : Exn)
  deriving DecidableEq, Repr

/-- The environment: for a given request, the result of the i-th invocation
of the underlying session call. -/
def Transport : Type := Request → Nat → TransportResult

/-- requests' Response.raise_for_status raises HTTPError exactly for 4xx
client errors and 5xx server errors. -/
def raiseForStatusTriggers (status : Nat) : Bool :=
  400 ≤ status && status < 600

/-- One attempt of a verb method body (e.g. api_client.py lines 98-109):
issue the session call for the request; a network-level exception propagates,
and a response with a client- or server-error status makes raise_for_status
raise HTTPError; otherwise the response is returned. -/
def attemptCall (transport : Transport) (req : Request) (i : Nat) :
    Except Exn Response :=
  match transport req i with
  | TransportResult.exn e => Except.error e
  | TransportResult.resp r =>
      if raiseForStatusTriggers r.status then Except.error (Exn.httpError r.status)
      else Except.ok r

/-- Dict-update semantics of session.headers.update: entries whose keys occur
in the update are replaced, the others kept, and the updated entries appended. -/
def headersUpdate (h upd : List (String × String)) :
    List (String × String) :=
  h.filter (fun p => !(upd.any (fun q => q.1 == p.1))) ++ upd

/-- Look up a header value by name. -/
def lookupHeader (h : List (String × String)) (name : String) : Option String :=
  (h.find? (fun p => p.1 == name)).map (fun p => p.2)

/-- The client: construction-time configuration fields plus the session's
default headers (api_client.py lines 60-84). -/
structure ApiClient where
  base_url : String
  api_key : Option String
  timeout : Int
  retry_count : Int
  session_headers : List (String × String)
  deriving DecidableEq, Repr

/-- ApiClient.__init__ (api_client.py lines 60-84): store the configuration,
update the fresh session's headers with Accept and User-Agent, and, if the
API key is truthy (Python: if api_key, so neither None nor the empty string),
update them with the X-CMC_PRO_API_KEY header. -/
def ApiClient.init (base_url : String) (api_key : Option String := none)
    (timeout : Int := 30) (retry_count : Int := 3) : ApiClient :=
  let h := headersUpdate []
    [("Accept", "application/json"), ("User-Agent", "Crypto-QA-Framework/1.0")]
  { base_url := base_url
    api_key := api_key
    timeout := timeout
    retry_count := retry_count
    session_headers :=
      match api_key with
      | none => h
      | some k => if k == "" then h else headersUpdate h [("X-CMC_PRO_API_KEY", k)] }

/-- The request built by ApiClient.get: url = base_url + endpoint, the
session's headers, query params, configured timeout. -/
def ApiClient.mkGetRequest (c : ApiClient) (endpoint : String)
    (params : Option (List (String × String))) : Request :=
  { verb := Verb.GET, url := c.base_url ++ endpoint,
    headers := c.session_headers, params := params, timeout := c.timeout }

/-- The request built by ApiClient.post. -/
def ApiClient.mkPostRequest (c : ApiClient) (endpoint : String)
    (formData jsonData : Option (List (String × String))) : Request :=
  { verb := Verb.POST, url := c.base_url ++ endpoint,
    headers := c.session_headers, formData := formData,
    jsonData := jsonData, timeout := c.timeout }

/-- The request built by ApiClient.put. -/
def ApiClient.mkPutRequest (c : ApiClient) (endpoint : String)
    (formData jsonData : Option (List (String × String))) : Request :=
  { verb := Verb.PUT, url := c.base_url ++ endpoint,
    headers := c.session_headers, formData := formData,
    jsonData := jsonData, timeout := c.timeout }

/-- The request built by ApiClient.delete. -/
def ApiClient.mkDeleteRequest (c : ApiClient) (endpoint : String)
    (params : Option (List (String × String))) : Request :=
  { verb := Verb.DELETE, url := c.base_url ++ endpoint,
    headers := c.session_headers, params := params, timeout := c.timeout }

/-- ApiClient.get (api_client.py lines 86-109): the method body wrapped by
the decorator retry(max_attempts=3), i.e. with the decorator's default
delay = 1, backoff = 2, exceptions = (RequestException,).  The method does
not mutate the client, so its denotation returns the run together with the
unchanged client state. -/
def ApiClient.get (c : ApiClient) (endpoint : String)
    (params : Option (List (String × String))) (transport : Transport) :
    RunResult Response × ApiClient :=
  (retry (attemptCall transport (c.mkGetRequest endpoint params)) 3 1 2
    isRequestException, c)

/-- ApiClient.post (api_client.py lines 111-137), wrapped by
retry(max_attempts=3). -/
def ApiClient.post (c : ApiClient) (endpoint : String)
    (formData jsonData : Option (List (String × String)))
    (transport : Transport) : RunResult Response × ApiClient :=
  (retry (attemptCall transport (c.mkPostRequest endpoint formData jsonData))
    3 1 2 isRequestException, c)

/-- ApiClient.put (api_client.py lines 139-165), wrapped by
retry(max_attempts=3). -/
def ApiClient.put (c : ApiClient) (endpoint : String)
    (formData jsonData : Option (List (String × String)))
    (transport : Transport) : RunResult Response × ApiClient :=
  (retry (attemptCall transport (c.mkPutRequest endpoint formData jsonData))
    3 1 2 isRequestException, c)

/-- ApiClient.delete (api_client.py lines 167-190), wrapped by
retry(max_attempts=3). -/
def ApiClient.delete (c : ApiClient) (endpoint : String)
    (params : Option (List (String × String))) (transport : Transport) :
    RunResult Response × ApiClient :=
  (retry (attemptCall transport (c.mkDeleteRequest endpoint params)) 3 1 2
    isRequestException, c)

/-- The geometric delay sequence the loop walks through: n sleeps starting at
cd, each subsequent one multiplied by b. -/
def delaySeq (cd b : Int) : Nat → List Int
  | 0 => []
  | n + 1 => cd :: delaySeq (cd * b) b n

/-- The warning log entries of n failed-and-retried attempts starting at
attempt index a with current delay cd. -/
def retryWarnings (a : Nat) (cd b : Int) (errF : Nat → Exn) : Nat → List LogEvent
  | 0 => []
  | n + 1 => LogEvent.warnRetry (a + 1) cd (errF a) ::
      retryWarnings (a + 1) (cd * b) b errF n

/-- A transport whose every invocation raises ConnectionError. -/
def connFailTransport : Transport := fun _ _ => TransportResult.exn Exn.connectionError

/-- A transport whose every invocation returns a 500 server-error response. -/
def serverErrorTransport : Transport :=
  fun _ _ => TransportResult.resp { status := 500 }

/-- A wrapped function that raises Timeout on its first two invocations and
returns a 200 response on the third. -/
def failTwiceThenOk : Nat → Except Exn Response :=
  fun i => if i < 2 then Except.error Exn.timeout else Except.ok { status := 200 }

theorem delaySeq_eq_map (b : Int) : ∀ (n : Nat) (cd : Int),
    delaySeq cd b n = (List.range n).map (fun i => cd * b ^ i) := by
  intro n
  induction n with
  | zero => intro cd; rfl
  | succ m ih =>
    intro cd
    rw [delaySeq, ih (cd * b), List.range_succ_eq_map, List.map_cons, List.map_map]
    refine congrArg₂ List.cons (by ring) ?_
    refine List.map_congr_left ?_
    intro i _
    show cd * b * b ^ i = cd * b ^ (i + 1)
    ring

theorem delaySeq_length (b : Int) : ∀ (n : Nat) (cd : Int),
    (delaySeq cd b n).length = n := by
  intro n
  induction n with
  | zero => intro cd; rfl
  | succ m ih => intro cd; simp [delaySeq, ih (cd * b)]

theorem wrapperLoop_allFail {α : Type} (exceptions : Exn → Bool) (b : Int)
    (f : Nat → Except Exn α) (errF : Nat → Exn)
    (hf : ∀ i, f i = Except.error (errF i))
    (hc : ∀ i, exceptions (errF i) = true) :
    ∀ (fuel a : Nat) (cd : Int), 1 ≤ fuel →
      wrapperLoop exceptions b f fuel a cd =
        { invocations := fuel,
          sleeps := delaySeq cd b (fuel - 1),
          log := retryWarnings a cd b errF (fuel - 1) ++
            [LogEvent.errorExhausted (a + fuel) (errF (a + fuel - 1))],
          outcome := Outcome.raised (errF (a + fuel - 1)) } := by
  intro fuel
  induction fuel with
  | zero => intro a cd h; exact absurd h (by omega)
  | succ n ih =>
    intro a cd _
    rw [wrapperLoop, hf a]
    simp only [hc a, if_true]
    cases n with
    | zero => simp [delaySeq, retryWarnings]
    | succ m =>
      rw [if_neg (by omega : ¬ m + 1 = 0)]
      simp only [ih (a + 1) (cd * b) (by omega), Nat.add_sub_cancel]
      rw [show a + 1 + (m + 1) = a + (m + 1 + 1) from by omega]
      simp [delaySeq, retryWarnings]

theorem wrapperLoop_succeedsAt {α : Type} (exceptions : Exn → Bool) (b : Int)
    (f : Nat → Except Exn α) (errF : Nat → Exn) (v : α) :
    ∀ (j fuel a : Nat) (cd : Int), j + 1 ≤ fuel →
      (∀ i, i < j → f (a + i) = Except.error (errF (a + i))) →
      (∀ i, i < j → exceptions (errF (a + i)) = true) →
      f (a + j) = Except.ok v →
      wrapperLoop exceptions b f fuel a cd =
        { invocations := j + 1,
          sleeps := delaySeq cd b j,
          log := retryWarnings a cd b errF j,
          outcome := Outcome.value v } := by
  intro j
  induction j with
  | zero =>
    intro fuel a cd hfuel _ _ hsucc
    obtain ⟨n, rfl⟩ : ∃ n, fuel = n + 1 := ⟨fuel - 1, by omega⟩
    simp only [Nat.add_zero] at hsucc
    rw [wrapperLoop, hsucc]
    simp [delaySeq, retryWarnings]
  | succ k ih =>
    intro fuel a cd hfuel hfail hexc hsucc
    obtain ⟨n, rfl⟩ : ∃ n, fuel = n + 1 := ⟨fuel - 1, by omega⟩
    have h0 := hfail 0 (by omega)
    have h0e := hexc 0 (by omega)
    simp only [Nat.add_zero] at h0 h0e
    rw [wrapperLoop, h0]
    simp only [h0e, if_true]
    rw [if_neg (by omega : ¬ n = 0)]
    have ihres := ih n (a + 1) (cd * b) (by omega)
      (fun i hi => by
        have := hfail (i + 1) (by omega)
        rwa [show a + (i + 1) = a + 1 + i from by omega] at this)
      (fun i hi => by
        have := hexc (i + 1) (by omega)
        rwa [show a + (i + 1) = a + 1 + i from by omega] at this)
      (by rwa [show a + (k + 1) = a + 1 + k from by omega] at hsucc)
    simp only [ihres]
    simp [delaySeq, retryWarnings]

theorem wrapperLoop_outcome {α : Type} (exceptions : Exn → Bool) (b : Int)
    (f : Nat → Except Exn α)
    (hc : ∀ i e, f i = Except.error e → exceptions e = true) :
    ∀ (fuel a : Nat) (cd : Int), 1 ≤ fuel →
      (∃ i v, f i = Except.ok v ∧
        (wrapperLoop exceptions b f fuel a cd).outcome = Outcome.value v) ∨
      (∃ i e, f i = Except.error e ∧ exceptions e = true ∧
        (wrapperLoop exceptions b f fuel a cd).outcome = Outcome.raised e) := by
  intro fuel
  induction fuel with
  | zero => intro a cd h; exact absurd h (by omega)
  | succ n ih =>
    intro a cd _
    rcases hfa : f a with e | v
    · have hce := hc a e hfa
      cases n with
      | zero =>
        refine Or.inr ⟨a, e, hfa, hce, ?_⟩
        rw [wrapperLoop, hfa]
        simp [hce]
      | succ m =>
        have hout : (wrapperLoop exceptions b f (m + 1 + 1) a cd).outcome =
            (wrapperLoop exceptions b f (m + 1) (a + 1) (cd * b)).outcome := by
          rw [wrapperLoop, hfa]
          simp [hce]
        rcases ih (a + 1) (cd * b) (by omega) with ⟨i, w, hi, ho⟩ | ⟨i, e2, hi, hce2, ho⟩
        · exact Or.inl ⟨i, w, hi, by rw [hout]; exact ho⟩
        · exact Or.inr ⟨i, e2, hi, hce2, by rw [hout]; exact ho⟩
    · refine Or.inl ⟨a, v, hfa, ?_⟩
      rw [wrapperLoop, hfa]

theorem retry3_allFail {α : Type} (f : Nat → Except Exn α) (e : Exn)
    (hf : ∀ i, f i = Except.error e) (he : isRequestException e = true) :
    retry f 3 1 2 isRequestException =
      { invocations := 3, sleeps := [1, 2],
        log := [LogEvent.warnRetry 1 1 e, LogEvent.warnRetry 2 2 e,
                LogEvent.errorExhausted 3 e],
        outcome := Outcome.raised e } := by
  unfold retry
  rw [wrapperLoop_allFail isRequestException 2 f (fun _ => e) hf (fun _ => he)
    (Int.toNat 3) 0 1 (by norm_num)]
  rfl

/-- C1: the claim fails on the code.  A client constructed with
retry_count = 5 still performs exactly 3 transport invocations and 2 sleeps
when every attempt raises ConnectionError, because the verb methods are
decorated with retry(max_attempts=3) and self.retry_count is stored but never
consulted, contradicting the constructor's own documentation of retry_count
as the number of retry attempts. -/
theorem get_ignores_configured_retry_count :
    (ApiClient.init "https://api.example.com" none 30 5).retry_count = 5 ∧
    ((ApiClient.init "https://api.example.com" none 30 5).get "/v1/x" none
        connFailTransport).1.invocations = 3 ∧
    ((ApiClient.init "https://api.example.com" none 30 5).get "/v1/x" none
        connFailTransport).1.sleeps.length = 2 := by
  refine ⟨rfl, ?_, ?_⟩
  · rw [ApiClient.get,
      retry3_allFail (attemptCall connFailTransport _) Exn.connectionError
        (fun _ => rfl) rfl]
  · rw [ApiClient.get,
      retry3_allFail (attemptCall connFailTransport _) Exn.connectionError
        (fun _ => rfl) rfl]
    rfl

/-- C2: for every call that fails on all attempts under max_attempts = N with
base delay d and backoff factor b, the sleep durations performed between
attempts are exactly d, d*b, d*b^2, ...: the i-th sleep equals d * b^i for
i = 0..N-2. -/
theorem retry_allFail_sleep_sequence {α : Type} (N d b : Int)
    (exceptions : Exn → Bool) (f : Nat → Except Exn α) (errF : Nat → Exn)
    (hf : ∀ i, f i = Except.error (errF i))
    (hc : ∀ i, exceptions (errF i) = true)
    (hN : 1 ≤ N) :
    (retry f N d b exceptions).sleeps =
      (List.range (N.toNat - 1)).map (fun i => d * b ^ i) := by
  unfold retry
  rw [wrapperLoop_allFail exceptions b f errF hf hc N.toNat 0 d (by omega)]
  exact delaySeq_eq_map b (N.toNat - 1) d

/-- Witness for C2: with max_attempts = 3, delay = 1, backoff = 2 and every
attempt raising ConnectionError, the sleeps are 1 then 2. -/
theorem retry_allFail_sleep_sequence_witness :
    (retry (fun _ => (Except.error Exn.connectionError : Except Exn Response))
      3 1 2 isRequestException).sleeps = [1, 2] := by
  rw [retry_allFail_sleep_sequence 3 1 2 isRequestException
    (fun _ => Except.error Exn.connectionError) (fun _ => Exn.connectionError)
    (fun _ => rfl) (fun _ => rfl) (by norm_num)]
  decide

/-- C3: a call whose k-th attempt succeeds after k-1 caught failures performs
exactly k invocations, sleeps d*b^i exactly for i < k-1 (none after the
success), and returns the successful attempt's result unchanged. -/
theorem retry_success_kth_attempt {α : Type} (N d b : Int)
    (exceptions : Exn → Bool) (f : Nat → Except Exn α) (errF : Nat → Exn)
    (v : α) (k : Nat) (hk : 1 ≤ k) (hkN : (k : Int) ≤ N)
    (hfail : ∀ i, i < k - 1 → f i = Except.error (errF i))
    (hexc : ∀ i, i < k - 1 → exceptions (errF i) = true)
    (hsucc : f (k - 1) = Except.ok v) :
    (retry f N d b exceptions).invocations = k ∧
    (retry f N d b exceptions).sleeps =
      (List.range (k - 1)).map (fun i => d * b ^ i) ∧
    (retry f N d b exceptions).outcome = Outcome.value v := by
  unfold retry
  rw [wrapperLoop_succeedsAt exceptions b f errF v (k - 1) N.toNat 0 d
    (by omega) (fun i hi => by simpa using hfail i hi)
    (fun i hi => by simpa using hexc i hi) (by simpa using hsucc)]
  exact ⟨by show k - 1 + 1 = k; omega, delaySeq_eq_map b (k - 1) d, rfl⟩

/-- Witness for C3: max_attempts = 3, delay = 1, backoff = 2, wrapped function
raising Timeout twice then returning a 200 response: exactly 3 invocations,
sleeps 1 then 2, and the response is returned. -/
theorem retry_success_kth_attempt_witness :
    (retry failTwiceThenOk 3 1 2 isRequestException).invocations = 3 ∧
    (retry failTwiceThenOk 3 1 2 isRequestException).sleeps = [1, 2] ∧
    (retry failTwiceThenOk 3 1 2 isRequestException).outcome =
      Outcome.value { status := 200 } := by
  have h := retry_success_kth_attempt 3 1 2 isRequestException failTwiceThenOk
    (fun _ => Exn.timeout) { status := 200 } 3 (by norm_num) (by norm_num)
    (fun i hi => by simp only [failTwiceThenOk]; rw [if_pos (by omega)])
    (fun i hi => rfl) (by rfl)
  refine ⟨h.1, ?_, h.2.2⟩
  rw [h.2.1]
  decide

/-- C4 counterexample: constructing a client with the empty-string API key
does supply a key (api_key is not none), yet the X-CMC_PRO_API_KEY header is
absent from the session's default headers, refuting the claim that the header
is present exactly when a key was supplied. -/
theorem api_key_header_counterexample :
    (ApiClient.init "https://api.example.com" (some "") 30 3).api_key =
      some "" ∧
    lookupHeader
      (ApiClient.init "https://api.example.com" (some "") 30 3).session_headers
      "X-CMC_PRO_API_KEY" = none :=
  ⟨rfl, rfl⟩

/-- C4 (amended): every request built by every verb carries the session's
default headers, and those headers carry X-CMC_PRO_API_KEY bound to the
configured key exactly when the supplied key is truthy (present and
non-empty); for an absent or empty-string key the header is absent. -/
theorem session_headers_api_key (base_url : String) (api_key : Option String)
    (t rc : Int) (endpoint : String)
    (params fd jd : Option (List (String × String))) :
    ((ApiClient.init base_url api_key t rc).mkGetRequest endpoint params).headers =
      (ApiClient.init base_url api_key t rc).session_headers ∧
    ((ApiClient.init base_url api_key t rc).mkPostRequest endpoint fd jd).headers =
      (ApiClient.init base_url api_key t rc).session_headers ∧
    ((ApiClient.init base_url api_key t rc).mkPutRequest endpoint fd jd).headers =
      (ApiClient.init base_url api_key t rc).session_headers ∧
    ((ApiClient.init base_url api_key t rc).mkDeleteRequest endpoint params).headers =
      (ApiClient.init base_url api_key t rc).session_headers ∧
    lookupHeader (ApiClient.init base_url api_key t rc).session_headers
        "X-CMC_PRO_API_KEY" =
      (match api_key with
       | none => none
       | some k => if k == "" then none else some k) := by
  refine ⟨rfl, rfl, rfl, rfl, ?_⟩
  cases api_key with
  | none => rfl
  | some k =>
    cases hk : k == "" with
    | true =>
      simp only [ApiClient.init, hk, if_true]
      rfl
    | false =>
      simp only [ApiClient.init, hk, if_false]
      rfl

/-- C5: a response whose status is a client or server error (4xx or 5xx)
makes the attempt raise HTTPError, which lies in the caught RequestException
category; a call whose every attempt yields such a response is therefore
retried to exhaustion (3 invocations) and raises rather than returning, for
all four verbs. -/
theorem error_status_is_retried (c : ApiClient) (endpoint : String)
    (params fd jd : Option (List (String × String))) (transport : Transport)
    (s : Nat) (hs : 400 ≤ s ∧ s < 600)
    (ht : ∀ r i, transport r i = TransportResult.resp { status := s }) :
    (∀ req i, attemptCall transport req i = Except.error (Exn.httpError s)) ∧
    isRequestException (Exn.httpError s) = true ∧
    (c.get endpoint params transport).1.invocations = 3 ∧
    (c.get endpoint params transport).1.outcome =
      Outcome.raised (Exn.httpError s) ∧
    (c.post endpoint fd jd transport).1.invocations = 3 ∧
    (c.post endpoint fd jd transport).1.outcome =
      Outcome.raised (Exn.httpError s) ∧
    (c.put endpoint fd jd transport).1.invocations = 3 ∧
    (c.put endpoint fd jd transport).1.outcome =
      Outcome.raised (Exn.httpError s) ∧
    (c.delete endpoint params transport).1.invocations = 3 ∧
    (c.delete endpoint params transport).1.outcome =
      Outcome.raised (Exn.httpError s) := by
  have hcond : raiseForStatusTriggers s = true := by
    simp only [raiseForStatusTriggers, Bool.and_eq_true, decide_eq_true_eq]
    omega
  have hatt : ∀ req i,
      attemptCall transport req i = Except.error (Exn.httpError s) := by
    intro req i
    unfold attemptCall
    rw [ht req i]
    simp [hcond]
  have hrun : ∀ req, retry (attemptCall transport req) 3 1 2 isRequestException =
      { invocations := 3, sleeps := [1, 2],
        log := [LogEvent.warnRetry 1 1 (Exn.httpError s),
                LogEvent.warnRetry 2 2 (Exn.httpError s),
                LogEvent.errorExhausted 3 (Exn.httpError s)],
        outcome := Outcome.raised (Exn.httpError s) } := fun req =>
    retry3_allFail (attemptCall transport req) (Exn.httpError s)
      (hatt req) rfl
  refine ⟨hatt, rfl, ?_, ?_, ?_, ?_, ?_, ?_, ?_, ?_⟩ <;>
    simp only [ApiClient.get, ApiClient.post, ApiClient.put, ApiClient.delete,
      hrun]

/-- Witness for C5: a client calling get against a transport that always
returns status 500 performs 3 invocations and raises HTTPError(500). -/
theorem error_status_is_retried_witness :
    ((ApiClient.init "https://api.example.com" none 30 3).get "/v1/x" none
      serverErrorTransport).1.invocations = 3 ∧
    ((ApiClient.init "https://api.example.com" none 30 3).get "/v1/x" none
      serverErrorTransport).1.outcome = Outcome.raised (Exn.httpError 500) := by
  have h := error_status_is_retried
    (ApiClient.init "https://api.example.com" none 30 3) "/v1/x" none none none
    serverErrorTransport 500 (by norm_num) (fun r i => rfl)
  exact ⟨h.2.2.1, h.2.2.2.1⟩

/-- C6: when all N attempts fail, the final attempt's failure is logged as an
error (the last log entry is the exhaustion error naming max_attempts and the
exception) and that exception is propagated: the outcome is the raised final
exception, there are exactly N invocations and only N-1 sleeps, so nothing is
retried, slept, or swallowed after the final failure. -/
theorem retry_exhaustion_logs_and_raises {α : Type} (N d b : Int)
    (exceptions : Exn → Bool) (f : Nat → Except Exn α) (errF : Nat → Exn)
    (hf : ∀ i, f i = Except.error (errF i))
    (hc : ∀ i, exceptions (errF i) = true)
    (hN : 1 ≤ N) :
    (retry f N d b exceptions).outcome =
      Outcome.raised (errF (N.toNat - 1)) ∧
    (retry f N d b exceptions).log.getLast? =
      some (LogEvent.errorExhausted N.toNat (errF (N.toNat - 1))) ∧
    (retry f N d b exceptions).invocations = N.toNat ∧
    (retry f N d b exceptions).sleeps.length = N.toNat - 1 := by
  unfold retry
  rw [wrapperLoop_allFail exceptions b f errF hf hc N.toNat 0 d (by omega)]
  refine ⟨by simp, ?_, rfl, delaySeq_length b (N.toNat - 1) d⟩
  show (retryWarnings 0 d b errF (N.toNat - 1) ++
      [LogEvent.errorExhausted (0 + N.toNat) (errF (0 + N.toNat - 1))]).getLast? =
    some (LogEvent.errorExhausted N.toNat (errF (N.toNat - 1)))
  rw [List.getLast?_concat]
  simp

/-- Witness for C6: max_attempts = 2, delay = 5, backoff = 3 with every
attempt raising ConnectionError: the call raises ConnectionError, the last
log entry is the exhaustion error for 2 attempts, with 2 invocations and a
single sleep. -/
theorem retry_exhaustion_logs_and_raises_witness :
    (retry (fun _ => (Except.error Exn.connectionError : Except Exn Nat))
      2 5 3 isRequestException).outcome = Outcome.raised Exn.connectionError ∧
    (retry (fun _ => (Except.error Exn.connectionError : Except Exn Nat))
      2 5 3 isRequestException).log.getLast? =
      some (LogEvent.errorExhausted 2 Exn.connectionError) ∧
    (retry (fun _ => (Except.error Exn.connectionError : Except Exn Nat))
      2 5 3 isRequestException).invocations = 2 ∧
    (retry (fun _ => (Except.error Exn.connectionError : Except Exn Nat))
      2 5 3 isRequestException).sleeps.length = 1 :=
  retry_exhaustion_logs_and_raises 2 5 3 isRequestException _
    (fun _ => Exn.connectionError) (fun _ => rfl) (fun _ => rfl) (by norm_num)

/-- C7: the client configuration (base URL, API key, timeout, retry count)
and the session's default headers are fixed at construction: every verb call
returns the client state unchanged, whatever the transport does. -/
theorem verb_calls_preserve_client (c : ApiClient) (endpoint : String)
    (params fd jd : Option (List (String × String))) (transport : Transport) :
    (c.get endpoint params transport).2 = c ∧
    (c.post endpoint fd jd transport).2 = c ∧
    (c.put endpoint fd jd transport).2 = c ∧
    (c.delete endpoint params transport).2 = c :=
  ⟨rfl, rfl, rfl, rfl⟩

/-- C8: for every verb call with endpoint path e, the issued request's URL is
exactly the configured base URL with e appended. -/
theorem request_url_is_base_concat_endpoint (c : ApiClient) (endpoint : String)
    (params fd jd : Option (List (String × String))) :
    (c.mkGetRequest endpoint params).url = c.base_url ++ endpoint ∧
    (c.mkPostRequest endpoint fd jd).url = c.base_url ++ endpoint ∧
    (c.mkPutRequest endpoint fd jd).url = c.base_url ++ endpoint ∧
    (c.mkDeleteRequest endpoint params).url = c.base_url ++ endpoint :=
  ⟨rfl, rfl, rfl, rfl⟩

/-- C9: supplying the empty string as the API key behaves exactly like
supplying no key: the session headers coincide and the X-CMC_PRO_API_KEY
header is absent (the constructor tests the key for truthiness, not
presence). -/
theorem empty_api_key_behaves_as_none (base_url : String) (t rc : Int) :
    (ApiClient.init base_url (some "") t rc).session_headers =
      (ApiClient.init base_url none t rc).session_headers ∧
    lookupHeader (ApiClient.init base_url (some "") t rc).session_headers
      "X-CMC_PRO_API_KEY" = none :=
  ⟨rfl, rfl⟩

/-- C10: for max_attempts ≥ 1 the wrapper either returns a value produced by
the wrapped function or re-raises one of its caught exceptions; for
max_attempts ≤ 0 the while loop is never entered: no invocation, no sleep,
no log entry, and the call returns None without raising. -/
theorem retry_totality {α : Type} (N d b : Int) (exceptions : Exn → Bool)
    (f : Nat → Except Exn α)
    (hc : ∀ i e, f i = Except.error e → exceptions e = true) :
    (1 ≤ N →
      (∃ i v, f i = Except.ok v ∧
        (retry f N d b exceptions).outcome = Outcome.value v) ∨
      (∃ i e, f i = Except.error e ∧ exceptions e = true ∧
        (retry f N d b exceptions).outcome = Outcome.raised e)) ∧
    (N ≤ 0 →
      retry f N d b exceptions =
        { invocations := 0, sleeps := [], log := [],
          outcome := Outcome.noneResult }) := by
  constructor
  · intro hN
    exact wrapperLoop_outcome exceptions b f hc N.toNat 0 d (by omega)
  · intro hN
    unfold retry
    rw [Int.toNat_of_nonpos hN]
    rfl

/-- Witness for C10 at max_attempts = -1: the wrapped function is never
invoked and the wrapper returns None. -/
theorem retry_totality_witness :
    retry (fun _ => (Except.ok (0 : Nat) : Except Exn Nat)) (-1) 1 2
      isRequestException =
      { invocations := 0, sleeps := [], log := [],
        outcome := Outcome.noneResult } :=
  (retry_totality (-1) 1 2 isRequestException _
    (fun _ _ h => by cases h)).2 (by norm_num)
